import Mathlib

/-!
Verification of the booky personal PDF library.

This file gives a shallow embedding of the library service
(`src/services/bookService.ts`, here from `src/unnamed/part_002`), the
remote store behaviour described by the SQL schema (`src/unnamed/part_000`),
the reading-area page-change handler (`src/src/App.tsx`) and the PDF viewer
navigation and visibility logic (`src/src/components/PDFViewer.tsx`), and
proves the specified properties about them.

Modelling conventions:
* timestamps are integers (an abstract totally ordered time carrier standing
  for ISO timestamp strings / TIMESTAMPTZ values);
* JavaScript numbers used for the progress percentage are rationals;
* absent / `undefined` / `null` fields are `Option`;
* the JavaScript `x ?? d` operator is `Option.getD`, and `x || d` on strings
  and numbers is modelled with the explicit falsiness of `""` and `0`;
* asynchronous store effects are driven by an environment record that fixes
  the outcome of each remote call, and the observable behaviour of a service
  call is returned as a trace of progress events and store actions.
-/

/-- The Book interface of `src/src/types/Book.ts`.  Optional interface
fields are `Option`; `dateAdded` and `lastRead` are timestamps. -/
structure Book where
  id : String
  title : String
  author : String
  dateAdded : Int
  fileSize : Int
  totalPages : Option Int
  description : Option String
  tags : Option (List String)
  url : String
  lastRead : Option Int
  currentPage : Option Int
  readingProgress : Option ℚ
deriving Repr, DecidableEq

/-- A row of the `books` table as declared in the SQL schema
(`src/unnamed/part_000`): `title`, `author`, `file_size`, `file_url` are
NOT NULL, the rest of the mapped columns are nullable. -/
structure DbRow where
  id : String
  title : String
  author : String
  description : Option String
  tags : Option (List String)
  file_size : Int
  total_pages : Option Int
  file_url : String
  current_page : Option Int
  reading_progress : Option ℚ
  last_read : Option Int
  created_at : Int
deriving Repr, DecidableEq

/-- The record shape produced by `toDb`: every mapped column except the
server-generated `id` and `created_at`.  Fields that the corresponding
`Partial Book` field may leave `undefined` are `Option`. -/
structure DbInsert where
  title : String
  author : String
  description : Option String
  tags : Option (List String)
  file_size : Int
  total_pages : Option Int
  file_url : String
  current_page : Option Int
  reading_progress : Option ℚ
  last_read : Option Int
deriving Repr, DecidableEq

/-- Function `fromDb` of the book service: maps a remote record to a Book, applying
the defensive defaults of the source (`?? ""`, `?? []`, `?? 0`, `?? 1`). -/
def fromDb (record : DbRow) : Book :=
  { id := record.id
    title := record.title
    author := record.author
    description := some (record.description.getD "")
    tags := some (record.tags.getD [])
    dateAdded := record.created_at
    fileSize := record.file_size
    totalPages := some (record.total_pages.getD 0)
    url := record.file_url
    currentPage := some (record.current_page.getD 1)
    readingProgress := some (record.reading_progress.getD 0)
    lastRead := record.last_read }

/-- Function `toDb` of the book service: projects a Book onto the record columns,
omitting `id` and `dateAdded`/`created_at`. -/
def toDb (book : Book) : DbInsert :=
  { title := book.title
    author := book.author
    description := book.description
    tags := book.tags
    file_size := book.fileSize
    total_pages := book.totalPages
    file_url := book.url
    current_page := book.currentPage
    reading_progress := book.readingProgress
    last_read := book.lastRead }

/-- The row returned by an insert, per the schema of `src/unnamed/part_000`:
the store echoes the supplied columns, generates `id` and `created_at`, and
applies the column defaults `current_page DEFAULT 1` and
`reading_progress DEFAULT 0` when those columns are absent. -/
def insertResponse (ins : DbInsert) (serverId : String) (now : Int) : DbRow :=
  { id := serverId
    title := ins.title
    author := ins.author
    description := ins.description
    tags := ins.tags
    file_size := ins.file_size
    total_pages := ins.total_pages
    file_url := ins.file_url
    current_page := some (ins.current_page.getD 1)
    reading_progress := some (ins.reading_progress.getD 0)
    last_read := ins.last_read
    created_at := now }

/-- JavaScript `s || fallback` on strings: the empty string is falsy, and an
absent (`undefined`) value falls through. -/
def jsOrString (v : Option String) (fallback : String) : String :=
  match v with
  | some s => if s = "" then fallback else s
  | none => fallback

/-- JavaScript `n || fallback` on numbers: `0` is falsy, and an absent
(`undefined`) value falls through. -/
def jsOrInt (v : Option Int) (fallback : Int) : Int :=
  match v with
  | some n => if n = 0 then fallback else n
  | none => fallback

/-- Helper for `splitOnChar`, accumulating the current segment. -/
def splitOnCharAux (c : Char) : List Char → List Char → List (List Char)
  | [], acc => [acc.reverse]
  | x :: xs, acc =>
    if x = c then acc.reverse :: splitOnCharAux c xs []
    else splitOnCharAux c xs (x :: acc)

/-- JavaScript `s.split(c)` for a one-character separator (the source only
splits on `"."` and `"/"`).  Always returns a non-empty list. -/
def splitOnChar (c : Char) (s : String) : List String :=
  (splitOnCharAux c s.data []).map (fun l => ⟨l⟩)

/-- First-occurrence replacement on character lists. -/
def replaceFirstList (pat sub : List Char) : List Char → List Char
  | [] => []
  | x :: xs =>
    if pat ≠ [] ∧ pat.isPrefixOf (x :: xs) then sub ++ (x :: xs).drop pat.length
    else x :: replaceFirstList pat sub xs

/-- JavaScript `s.replace(pat, sub)` with a string pattern replaces the
first occurrence only. -/
def replaceFirst (s pat sub : String) : String :=
  ⟨replaceFirstList pat.data sub.data s.data⟩

example : replaceFirst "war.pdf" ".pdf" "" = "war" := rfl
example : replaceFirst "nopdfhere" ".pdf" "" = "nopdfhere" := rfl
example : replaceFirst "a.pdf.pdf" ".pdf" "" = "a.pdf" := rfl
example : splitOnChar '.' "war.pdf" = ["war", "pdf"] := rfl
example : (splitOnChar '/' "http://x/y/z.pdf").getLast? = some "z.pdf" := rfl

/-- The UploadProgress status union of `src/src/types/Book.ts`. -/
inductive UploadStatus
  | uploading
  | processing
  | completed
  | error
deriving Repr, DecidableEq

/-- The UploadProgress interface of `src/src/types/Book.ts`. -/
structure UploadProgress where
  bookId : String
  progress : Int
  status : UploadStatus
  error : Option String
deriving Repr, DecidableEq

/-- One observable step of a service call: a progress-callback invocation or
a remote-store effect.  The order of the list is the order in which the
source performs these steps. -/
inductive TraceItem
  | progress (p : UploadProgress)
  | storageUpload (key : String)
  | dbInsert (record : DbInsert)
  | dbDelete (id : String)
  | storageRemove (key : String)
deriving Repr, DecidableEq

/-- The progress events of a trace, in order. -/
def traceEvents : List TraceItem → List UploadProgress
  | [] => []
  | .progress p :: rest => p :: traceEvents rest
  | _ :: rest => traceEvents rest

/-- The `file` argument of `uploadBook`: name and byte size. -/
structure FileInfo where
  name : String
  size : Int
deriving Repr, DecidableEq

/-- The `metadata` argument of `uploadBook`; every field is optional. -/
structure UploadMetadata where
  title : Option String
  author : Option String
  description : Option String
  tags : Option (List String)
deriving Repr, DecidableEq

/-- Environment fixing the outcome of the remote calls one `uploadBook`
invocation makes: the client-generated identifier (`generateId`), whether
the binary upload fails (and with what message), the public-URL derivation
of the storage bucket (a pure function of the object key), whether the
metadata insert fails, and the server-generated row id and `created_at`
used for a successful insert. -/
structure UploadEnv where
  clientId : String
  uploadErr : Option String
  publicUrlFor : String → String
  insertErr : Option String
  serverId : String
  now : Int

/-- Result of one `uploadBook` call: the returned Book or raised error
message, the full observable trace, and the row a successful insert
created. -/
structure UploadOutcome where
  result : Except String Book
  trace : List TraceItem
  insertedRow : Option DbRow
deriving Repr

/-- The object key `uploadBook` builds:
`fileName = bookId + "." + file.name.split(".").pop()` with the
client-generated identifier as prefix. -/
def uploadFileName (env : UploadEnv) (file : FileInfo) : String :=
  env.clientId ++ "." ++ ((splitOnChar '.' file.name).getLast?).getD ""

/-- The `dbRecord` local of `uploadBook`: `toDb` of the literal built from
the file and metadata, with `currentPage 1`, `readingProgress 0`, the
derived public URL, title fallback `file.name.replace(".pdf", "")` and
author fallback `"Unknown Author"` (the literal supplies no `dateAdded`,
`totalPages` or `lastRead`, and `toDb` reads no `dateAdded`). -/
def uploadRecord (env : UploadEnv) (file : FileInfo) (metadata : UploadMetadata) : DbInsert :=
  toDb
    { id := env.clientId
      title := jsOrString metadata.title (replaceFirst file.name ".pdf" "")
      author := jsOrString metadata.author "Unknown Author"
      description := metadata.description
      tags := metadata.tags
      dateAdded := 0
      fileSize := file.size
      totalPages := none
      url := env.publicUrlFor (uploadFileName env file)
      lastRead := none
      currentPage := some 1
      readingProgress := some 0 }

/-- Shallow embedding of `BookService.uploadBook`
(`src/unnamed/part_002`).  Progress events are emitted at 0, 25, 50, 75 and
100; the binary upload happens between 25 and 50, the public URL is a pure
derivation from the object key, the metadata insert happens after 75; any
failure emits a terminal error event with the raised message and re-raises;
the catch block performs no store effect. -/
def uploadBook (env : UploadEnv) (file : FileInfo) (metadata : UploadMetadata) :
    UploadOutcome :=
  let bookId := env.clientId
  let fileName := uploadFileName env file
  let ev0 : List TraceItem :=
    [.progress ⟨bookId, 0, .uploading, none⟩, .progress ⟨bookId, 25, .uploading, none⟩]
  match env.uploadErr with
  | some m =>
      let msg := "File upload failed: " ++ m
      { result := .error msg
        trace := ev0 ++ [.storageUpload fileName, .progress ⟨bookId, 0, .error, some msg⟩]
        insertedRow := none }
  | none =>
      let ev1 := ev0 ++ [.storageUpload fileName, .progress ⟨bookId, 50, .processing, none⟩]
      let publicUrl := env.publicUrlFor fileName
      if publicUrl = "" then
        let msg := "Failed to get file URL"
        { result := .error msg
          trace := ev1 ++ [.progress ⟨bookId, 0, .error, some msg⟩]
          insertedRow := none }
      else
        let ev2 := ev1 ++ [.progress ⟨bookId, 75, .processing, none⟩]
        let dbRecord := uploadRecord env file metadata
        match env.insertErr with
        | some m =>
            let msg := "Database insert failed: " ++ m
            { result := .error msg
              trace := ev2 ++ [.dbInsert dbRecord, .progress ⟨bookId, 0, .error, some msg⟩]
              insertedRow := none }
        | none =>
            let row := insertResponse dbRecord env.serverId env.now
            { result := .ok (fromDb row)
              trace := ev2 ++ [.dbInsert dbRecord, .progress ⟨bookId, 100, .completed, none⟩]
              insertedRow := some row }

/-- The row order requested by `getBooks`:
`.order(last_read, descending, nulls last).order(created_at, descending)`,
as a Bool comparator (`a` sorts no later than `b`). -/
def dbBeforeB (a b : DbRow) : Bool :=
  match a.last_read, b.last_read with
  | some x, some y => decide (y < x) || (decide (x = y) && decide (b.created_at ≤ a.created_at))
  | some _, none => true
  | none, some _ => false
  | none, none => decide (b.created_at ≤ a.created_at)

/-- Propositional form of `dbBeforeB`. -/
def dbBefore (a b : DbRow) : Prop := dbBeforeB a b = true

instance : DecidableRel dbBefore := fun a b => instDecidableEqBool (dbBeforeB a b) true

/-- The same order on Books (last-read descending with nulls last, then
creation time descending). -/
def bookBefore (a b : Book) : Prop :=
  match a.lastRead, b.lastRead with
  | some x, some y => y < x ∨ (x = y ∧ b.dateAdded ≤ a.dateAdded)
  | some _, none => True
  | none, some _ => False
  | none, none => b.dateAdded ≤ a.dateAdded

/-- The ordered select underlying `getBooks`, modelled as a sort of the
stored rows by the requested comparator. -/
def orderedRows (records : List DbRow) : List DbRow :=
  List.insertionSort dbBefore records

/-- Shallow embedding of `BookService.getBooks` (`src/unnamed/part_002`):
the fetch either fails with a message or yields the ordered rows; rows are
mapped through `fromDb`; the catch block converts any failure into `[]`. -/
def getBooks (fetch : Except String (List DbRow)) : List Book :=
  match fetch with
  | .error _ => []
  | .ok data => data.map fromDb

/-- Embedding of `getBooks` run against a store holding `records`, with the select
succeeding and returning them in the requested order. -/
def getBooksFromStore (records : List DbRow) : List Book :=
  getBooks (.ok (orderedRows records))

/-- The store contents seen by `deleteBook`: the `books` table and the
object keys of the storage bucket. -/
structure StoreState where
  records : List DbRow
  objects : List String
deriving Repr, DecidableEq

/-- Environment fixing the outcome of the remote calls `deleteBook` makes. -/
structure DeleteEnv where
  fetchErr : Option String
  dbDeleteErr : Option String
  storageErr : Option String
deriving Repr, DecidableEq

/-- The lookup `.select(file_url).eq(id, bookId).single()`: succeeds exactly when one
row matches. -/
def lookupSingle (records : List DbRow) (bookId : String) : Except String DbRow :=
  match records.filter (fun r => r.id == bookId) with
  | [r] => .ok r
  | _ => .error "JSON object requested, multiple (or no) rows returned"

/-- Result of one `deleteBook` call: raised error or unit, the resulting
store contents, and the performed store effects in order. -/
structure DeleteOutcome where
  result : Except String Unit
  state : StoreState
  trace : List TraceItem
deriving Repr

/-- Shallow embedding of `BookService.deleteBook` (`src/unnamed/part_002`):
look up the file URL of the record (raising on failure), delete the
metadata record (raising on failure), then, when the URL yields a non-empty
object key, remove the binary, with a removal failure only logged. -/
def deleteBook (env : DeleteEnv) (s : StoreState) (bookId : String) : DeleteOutcome :=
  match env.fetchErr with
  | some m => { result := .error ("Failed to fetch book: " ++ m), state := s, trace := [] }
  | none =>
    match lookupSingle s.records bookId with
    | .error m => { result := .error ("Failed to fetch book: " ++ m), state := s, trace := [] }
    | .ok book =>
      let filename := ((splitOnChar '/' book.file_url).getLast?).getD ""
      match env.dbDeleteErr with
      | some m =>
          { result := .error ("Failed to delete book record: " ++ m), state := s, trace := [] }
      | none =>
        let s1 : StoreState := { s with records := s.records.filter (fun r => !(r.id == bookId)) }
        if filename = "" then
          { result := .ok (), state := s1, trace := [.dbDelete bookId] }
        else
          match env.storageErr with
          | some _ =>
              { result := .ok (), state := s1
                trace := [.dbDelete bookId, .storageRemove filename] }
          | none =>
              { result := .ok ()
                state := { s1 with objects := s1.objects.filter (fun k => !(k == filename)) }
                trace := [.dbDelete bookId, .storageRemove filename] }

/-- The partial update `BookService.updateReadingProgress`
(`src/unnamed/part_002`) passes to `updateBook`: the new current page, the
recomputed progress `(currentPage / totalPages) * 100`, the current time as
last-read, and the total page count. -/
structure ProgressUpdate where
  currentPage : Int
  readingProgress : ℚ
  lastRead : Int
  totalPages : Int
deriving Repr, DecidableEq

/-- Shallow embedding of `BookService.updateReadingProgress`. -/
def updateReadingProgress (currentPage totalPages : Int) (now : Int) : ProgressUpdate :=
  { currentPage := currentPage
    readingProgress := (currentPage : ℚ) / (totalPages : ℚ) * 100
    lastRead := now
    totalPages := totalPages }

/-- Shallow embedding of `handlePageChange` in the reading area
(`src/src/App.tsx`): builds the updated Book handed to `onBookUpdate`. -/
def handlePageChange (book : Book) (currentPage totalPages : Int) (now : Int) : Book :=
  { book with
      currentPage := some currentPage
      readingProgress := some ((currentPage : ℚ) / (totalPages : ℚ) * 100)
      lastRead := some now }

/-- The navigation state of the PDF viewer
(`src/src/components/PDFViewer.tsx`). -/
structure ViewerState where
  currentPage : Int
  totalPages : Int
deriving Repr, DecidableEq

/-- Function `goToPage` of the viewer: updates the page only when the target lies in
`[1, totalPages]`, otherwise leaves the state unchanged. -/
def goToPage (s : ViewerState) (pageNum : Int) : ViewerState :=
  if 1 ≤ pageNum ∧ pageNum ≤ s.totalPages then { s with currentPage := pageNum } else s

/-- Function `handlePageInput` of the viewer: the parsed value of the entry field
(`none` models a parse yielding NaN) is forwarded to `goToPage` when
numeric, otherwise nothing happens. -/
def handlePageInput (s : ViewerState) (parsed : Option Int) : ViewerState :=
  match parsed with
  | none => s
  | some pageNum => goToPage s pageNum

/-- The navigation state `loadPDF` establishes once the document is open:
`totalPages` from the document and `currentPage := book.currentPage || 1`. -/
def loadPDF_state (book : Book) (numPages : Int) : ViewerState :=
  { currentPage := jsOrInt book.currentPage 1, totalPages := numPages }

/-- One intersection-observer entry in scroll mode: the page number of the
observed element, whether it intersects, and the visible fraction. -/
structure IntersectionEntry where
  pageNum : Int
  isIntersecting : Bool
  intersectionRatio : ℚ
deriving Repr, DecidableEq

/-- The observable outcome of one observer callback: the reported current
page, the visible-page set, and the page-change callback invocation, if
any. -/
structure ObserverResult where
  currentPage : Int
  visiblePages : Finset Int
  callback : Option (Int × Int)
deriving DecidableEq

/-- One iteration of the `entries.forEach` loop of the scroll-mode observer
(`src/src/components/PDFViewer.tsx`): intersecting entries join the
visible set and take over the running maximum when their ratio exceeds it;
non-intersecting entries leave the visible set. -/
def observerStep (acc : ℚ × Int × Finset Int) (entry : IntersectionEntry) :
    ℚ × Int × Finset Int :=
  if entry.isIntersecting then
    if acc.1 < entry.intersectionRatio then
      (entry.intersectionRatio, entry.pageNum, insert entry.pageNum acc.2.2)
    else
      (acc.1, acc.2.1, insert entry.pageNum acc.2.2)
  else
    (acc.1, acc.2.1, acc.2.2.erase entry.pageNum)

/-- The whole observer callback: fold the entries starting from
`maxRatio = 0, maxPage = currentPage`, then adopt the most visible page and
fire the page-change callback only when `maxRatio > 0.1`. -/
def observerCallback (currentPage totalPages : Int) (visible : Finset Int)
    (entries : List IntersectionEntry) : ObserverResult :=
  let st := entries.foldl observerStep (0, currentPage, visible)
  if (1 : ℚ) / 10 < st.1 then
    { currentPage := st.2.1, visiblePages := st.2.2, callback := some (st.2.1, totalPages) }
  else
    { currentPage := currentPage, visiblePages := st.2.2, callback := none }

/-! Concrete sample inputs used by the witness theorems. -/

/-- A sample environment for a fully successful upload. -/
def uploadEnvW : UploadEnv :=
  { clientId := "client1"
    uploadErr := none
    publicUrlFor := fun key => "https://store/books/" ++ key
    insertErr := none
    serverId := "server1"
    now := 5 }

/-- The same environment with a failing metadata insert. -/
def uploadEnvFailW : UploadEnv :=
  { uploadEnvW with insertErr := some "duplicate key" }

/-- A sample PDF file argument. -/
def fileW : FileInfo := { name := "war.pdf", size := 1234 }

/-- Sample upload metadata. -/
def metadataW : UploadMetadata :=
  { title := some "War", author := some "Tolstoy", description := none, tags := none }

/-- The Book a successful upload of `fileW` under `uploadEnvW` returns. -/
def uploadResultW : Book :=
  { id := "server1"
    title := "War"
    author := "Tolstoy"
    dateAdded := 5
    fileSize := 1234
    totalPages := some 0
    description := some ""
    tags := some []
    url := "https://store/books/client1.pdf"
    lastRead := none
    currentPage := some 1
    readingProgress := some 0 }

/-- A sample record that has never been read. -/
def rowW1 : DbRow :=
  { id := "a", title := "A", author := "x", description := none, tags := none
    file_size := 10, total_pages := none, file_url := "https://s/b/a.pdf"
    current_page := none, reading_progress := none, last_read := none, created_at := 1 }

/-- A sample record last read at time 10. -/
def rowW2 : DbRow :=
  { rowW1 with id := "b", last_read := some 10, created_at := 2, file_url := "https://s/b/b.pdf" }

/-- A sample record last read at time 20. -/
def rowW3 : DbRow :=
  { rowW1 with id := "c", last_read := some 20, created_at := 3, file_url := "https://s/b/c.pdf" }

/-- A sample store holding the three records and their binaries. -/
def storeW : StoreState :=
  { records := [rowW1, rowW2, rowW3], objects := ["a.pdf", "b.pdf", "c.pdf"] }

/-- A delete environment whose binary removal fails. -/
def deleteEnvStorageFailW : DeleteEnv :=
  { fetchErr := none, dbDeleteErr := none, storageErr := some "storage down" }

/-- A Book whose stored current page exceeds the page count of the sample
ten-page document it is opened on. -/
def bookBadPageW : Book :=
  { id := "b1", title := "T", author := "A", dateAdded := 0, fileSize := 9
    totalPages := some 37, description := none, tags := none, url := "https://s/b/b1.pdf"
    lastRead := none, currentPage := some 37, readingProgress := none }
lemma uploadRecord_file_url (env : UploadEnv) (file : FileInfo) (metadata : UploadMetadata) :
    (uploadRecord env file metadata).file_url = env.publicUrlFor (uploadFileName env file) := rfl

lemma uploadBook_eq_of_uploadErr (env : UploadEnv) (file : FileInfo)
    (metadata : UploadMetadata) (m : String) (hu : env.uploadErr = some m) :
    uploadBook env file metadata =
      { result := .error ("File upload failed: " ++ m)
        trace := [.progress ⟨env.clientId, 0, .uploading, none⟩,
                  .progress ⟨env.clientId, 25, .uploading, none⟩,
                  .storageUpload (uploadFileName env file),
                  .progress ⟨env.clientId, 0, .error, some ("File upload failed: " ++ m)⟩]
        insertedRow := none } := by
  simp [uploadBook, hu]

lemma uploadBook_eq_of_urlEmpty (env : UploadEnv) (file : FileInfo)
    (metadata : UploadMetadata) (hu : env.uploadErr = none)
    (hurl : env.publicUrlFor (uploadFileName env file) = "") :
    uploadBook env file metadata =
      { result := .error "Failed to get file URL"
        trace := [.progress ⟨env.clientId, 0, .uploading, none⟩,
                  .progress ⟨env.clientId, 25, .uploading, none⟩,
                  .storageUpload (uploadFileName env file),
                  .progress ⟨env.clientId, 50, .processing, none⟩,
                  .progress ⟨env.clientId, 0, .error, some "Failed to get file URL"⟩]
        insertedRow := none } := by
  simp [uploadBook, hu, hurl]

lemma uploadBook_eq_of_insertErr (env : UploadEnv) (file : FileInfo)
    (metadata : UploadMetadata) (m : String) (hu : env.uploadErr = none)
    (hurl : ¬ env.publicUrlFor (uploadFileName env file) = "")
    (hi : env.insertErr = some m) :
    uploadBook env file metadata =
      { result := .error ("Database insert failed: " ++ m)
        trace := [.progress ⟨env.clientId, 0, .uploading, none⟩,
                  .progress ⟨env.clientId, 25, .uploading, none⟩,
                  .storageUpload (uploadFileName env file),
                  .progress ⟨env.clientId, 50, .processing, none⟩,
                  .progress ⟨env.clientId, 75, .processing, none⟩,
                  .dbInsert (uploadRecord env file metadata),
                  .progress ⟨env.clientId, 0, .error,
                    some ("Database insert failed: " ++ m)⟩]
        insertedRow := none } := by
  simp [uploadBook, hu, hurl, hi]

lemma uploadBook_eq_success (env : UploadEnv) (file : FileInfo)
    (metadata : UploadMetadata) (hu : env.uploadErr = none)
    (hurl : ¬ env.publicUrlFor (uploadFileName env file) = "")
    (hi : env.insertErr = none) :
    uploadBook env file metadata =
      { result := .ok (fromDb (insertResponse (uploadRecord env file metadata)
          env.serverId env.now))
        trace := [.progress ⟨env.clientId, 0, .uploading, none⟩,
                  .progress ⟨env.clientId, 25, .uploading, none⟩,
                  .storageUpload (uploadFileName env file),
                  .progress ⟨env.clientId, 50, .processing, none⟩,
                  .progress ⟨env.clientId, 75, .processing, none⟩,
                  .dbInsert (uploadRecord env file metadata),
                  .progress ⟨env.clientId, 100, .completed, none⟩]
        insertedRow := some (insertResponse (uploadRecord env file metadata)
          env.serverId env.now) } := by
  simp [uploadBook, hu, hurl, hi]

lemma append_ne_empty_left (a b : String) (ha : a ≠ "") : a ++ b ≠ "" := by
  intro hc
  apply ha
  have hd := congrArg String.data hc
  rw [String.data_append] at hd
  rcases List.append_eq_nil.mp hd with ⟨h1, _⟩
  exact String.ext h1

/-- C1: a successful uploadBook invokes the progress callback exactly with
percents 0, 25, 50, 75, 100 in that order (statuses uploading, uploading,
processing, processing, completed), and the binary upload strictly precedes
the metadata insert, whose record already carries the non-empty public
URL. -/
theorem uploadBook_progress_checkpoints (env : UploadEnv) (file : FileInfo)
    (metadata : UploadMetadata) (b : Book)
    (h : (uploadBook env file metadata).result = .ok b) :
    (traceEvents (uploadBook env file metadata).trace).map UploadProgress.progress
      = [0, 25, 50, 75, 100] ∧
    (traceEvents (uploadBook env file metadata).trace).map UploadProgress.status
      = [.uploading, .uploading, .processing, .processing, .completed] ∧
    ∃ key record, (uploadBook env file metadata).trace =
      [.progress ⟨env.clientId, 0, .uploading, none⟩,
       .progress ⟨env.clientId, 25, .uploading, none⟩,
       .storageUpload key,
       .progress ⟨env.clientId, 50, .processing, none⟩,
       .progress ⟨env.clientId, 75, .processing, none⟩,
       .dbInsert record,
       .progress ⟨env.clientId, 100, .completed, none⟩] ∧
      record.file_url ≠ "" := by
  rcases hu : env.uploadErr with _ | mu
  · by_cases hurl : env.publicUrlFor (uploadFileName env file) = ""
    · rw [uploadBook_eq_of_urlEmpty env file metadata hu hurl] at h
      exact absurd h (by simp)
    · rcases hi : env.insertErr with _ | mi
      · rw [uploadBook_eq_success env file metadata hu hurl hi]
        refine ⟨by simp [traceEvents], by simp [traceEvents], _, _, rfl, ?_⟩
        rw [uploadRecord_file_url]
        exact hurl
      · rw [uploadBook_eq_of_insertErr env file metadata mi hu hurl hi] at h
        exact absurd h (by simp)
  · rw [uploadBook_eq_of_uploadErr env file metadata mu hu] at h
    exact absurd h (by simp)
/-- C2: a successful uploadBook returns a Book with a non-empty binary URL,
and the record inserted into the store has current page 1 and reading
progress 0, and carries that same URL. -/
theorem uploadBook_valid_result (env : UploadEnv) (file : FileInfo)
    (metadata : UploadMetadata) (b : Book)
    (h : (uploadBook env file metadata).result = .ok b) :
    b.url ≠ "" ∧
    ∃ row, (uploadBook env file metadata).insertedRow = some row ∧
      row.current_page = some 1 ∧ row.reading_progress = some 0 ∧ b.url = row.file_url := by
  rcases hu : env.uploadErr with _ | mu
  · by_cases hurl : env.publicUrlFor (uploadFileName env file) = ""
    · rw [uploadBook_eq_of_urlEmpty env file metadata hu hurl] at h
      exact absurd h (by simp)
    · rcases hi : env.insertErr with _ | mi
      · rw [uploadBook_eq_success env file metadata hu hurl hi] at h ⊢
        replace h : fromDb (insertResponse (uploadRecord env file metadata)
            env.serverId env.now) = b := by simpa using h
        subst h
        exact ⟨hurl, _, rfl, rfl, rfl, rfl⟩
      · rw [uploadBook_eq_of_insertErr env file metadata mi hu hurl hi] at h
        exact absurd h (by simp)
  · rw [uploadBook_eq_of_uploadErr env file metadata mu hu] at h
    exact absurd h (by simp)

/-- C3: a failing uploadBook raises a non-empty message, its last progress
event is a terminal error event carrying that same message, and no rollback
happens: the trace contains no storage removal (and no record deletion). -/
theorem uploadBook_failure_behaviour (env : UploadEnv) (file : FileInfo)
    (metadata : UploadMetadata) (msg : String)
    (h : (uploadBook env file metadata).result = .error msg) :
    msg ≠ "" ∧
    (traceEvents (uploadBook env file metadata).trace).getLast?
      = some ⟨env.clientId, 0, .error, some msg⟩ ∧
    (∀ key, TraceItem.storageRemove key ∉ (uploadBook env file metadata).trace) ∧
    (∀ i, TraceItem.dbDelete i ∉ (uploadBook env file metadata).trace) := by
  rcases hu : env.uploadErr with _ | mu
  · by_cases hurl : env.publicUrlFor (uploadFileName env file) = ""
    · rw [uploadBook_eq_of_urlEmpty env file metadata hu hurl] at h ⊢
      replace h : "Failed to get file URL" = msg := by simpa using h
      subst h
      exact ⟨by decide, by simp [traceEvents], by simp, by simp⟩
    · rcases hi : env.insertErr with _ | mi
      · rw [uploadBook_eq_success env file metadata hu hurl hi] at h
        exact absurd h (by simp)
      · rw [uploadBook_eq_of_insertErr env file metadata mi hu hurl hi] at h ⊢
        replace h : "Database insert failed: " ++ mi = msg := by simpa using h
        subst h
        exact ⟨append_ne_empty_left _ _ (by decide), by simp [traceEvents], by simp, by simp⟩
  · rw [uploadBook_eq_of_uploadErr env file metadata mu hu] at h ⊢
    replace h : "File upload failed: " ++ mu = msg := by simpa using h
    subst h
    exact ⟨append_ne_empty_left _ _ (by decide), by simp [traceEvents], by simp, by simp⟩

/-- C10: every progress event of a successful upload carries the
client-generated identifier, which is the prefix of the storage object key;
the returned Book instead carries the server-generated row id (toDb is
insensitive to the id field), so no emitted event carries the id of the
returned Book. -/
theorem uploadBook_identifier_separation (env : UploadEnv) (file : FileInfo)
    (metadata : UploadMetadata) (b : Book)
    (h : (uploadBook env file metadata).result = .ok b)
    (hne : env.serverId ≠ env.clientId) :
    (∀ p ∈ traceEvents (uploadBook env file metadata).trace, p.bookId = env.clientId) ∧
    (∃ ext, TraceItem.storageUpload (env.clientId ++ "." ++ ext)
        ∈ (uploadBook env file metadata).trace) ∧
    b.id = env.serverId ∧
    (∀ p ∈ traceEvents (uploadBook env file metadata).trace, p.bookId ≠ b.id) ∧
    (∀ bk : Book, ∀ x : String, toDb bk = toDb { bk with id := x }) := by
  rcases hu : env.uploadErr with _ | mu
  · by_cases hurl : env.publicUrlFor (uploadFileName env file) = ""
    · rw [uploadBook_eq_of_urlEmpty env file metadata hu hurl] at h
      exact absurd h (by simp)
    · rcases hi : env.insertErr with _ | mi
      · rw [uploadBook_eq_success env file metadata hu hurl hi] at h ⊢
        replace h : fromDb (insertResponse (uploadRecord env file metadata)
            env.serverId env.now) = b := by simpa using h
        subst h
        refine ⟨by simp [traceEvents],
          ⟨((splitOnChar '.' file.name).getLast?).getD "", by simp [uploadFileName]⟩, rfl, ?_,
          fun bk x => rfl⟩
        have hb : (fromDb (insertResponse (uploadRecord env file metadata)
            env.serverId env.now)).id = env.serverId := rfl
        rw [hb]
        intro p hp
        simp [traceEvents] at hp
        rcases hp with h1 | h1 | h1 | h1 | h1 <;> rw [h1] <;> exact fun hc => hne hc.symm
      · rw [uploadBook_eq_of_insertErr env file metadata mi hu hurl hi] at h
        exact absurd h (by simp)
  · rw [uploadBook_eq_of_uploadErr env file metadata mu hu] at h
    exact absurd h (by simp)

/-- Witness for C1: a concrete successful upload. -/
theorem uploadBook_progress_checkpoints_witness :
    (uploadBook uploadEnvW fileW metadataW).result = .ok uploadResultW ∧
    (traceEvents (uploadBook uploadEnvW fileW metadataW).trace).map UploadProgress.progress
      = [0, 25, 50, 75, 100] :=
  ⟨rfl, (uploadBook_progress_checkpoints uploadEnvW fileW metadataW uploadResultW rfl).1⟩

/-- Witness for C2: the concrete successful upload has a non-empty URL. -/
theorem uploadBook_valid_result_witness :
    (uploadBook uploadEnvW fileW metadataW).result = .ok uploadResultW ∧
    uploadResultW.url ≠ "" :=
  ⟨rfl, (uploadBook_valid_result uploadEnvW fileW metadataW uploadResultW rfl).1⟩

/-- Witness for C3: a concrete upload whose insert fails after the binary
upload succeeded; nothing is removed from storage. -/
theorem uploadBook_failure_behaviour_witness :
    (uploadBook uploadEnvFailW fileW metadataW).result
      = .error "Database insert failed: duplicate key" ∧
    (∀ key, TraceItem.storageRemove key ∉ (uploadBook uploadEnvFailW fileW metadataW).trace) :=
  ⟨rfl, (uploadBook_failure_behaviour uploadEnvFailW fileW metadataW
    "Database insert failed: duplicate key" rfl).2.2.1⟩

/-- Witness for C10: in the concrete successful upload the returned id is
the server-generated one, distinct from the client-generated one. -/
theorem uploadBook_identifier_separation_witness :
    (uploadBook uploadEnvW fileW metadataW).result = .ok uploadResultW ∧
    uploadResultW.id = "server1" :=
  ⟨rfl, (uploadBook_identifier_separation uploadEnvW fileW metadataW uploadResultW rfl
    (by decide)).2.2.1⟩
instance : IsTotal DbRow dbBefore :=
  ⟨by
    intro a b
    unfold dbBefore dbBeforeB
    rcases a.last_read with _ | x <;> rcases b.last_read with _ | y <;> simp <;> omega⟩

instance : IsTrans DbRow dbBefore :=
  ⟨by
    intro a b c hab hbc
    unfold dbBefore dbBeforeB at *
    rcases ha : a.last_read with _ | x <;> rcases hb : b.last_read with _ | y <;>
      rcases hc : c.last_read with _ | z <;> simp [ha, hb, hc] at * <;> omega⟩

lemma bookBefore_fromDb (a b : DbRow) (h : dbBefore a b) :
    bookBefore (fromDb a) (fromDb b) := by
  unfold dbBefore dbBeforeB at h
  unfold bookBefore fromDb
  rcases ha : a.last_read with _ | x <;> rcases hb : b.last_read with _ | y <;>
    simp [ha, hb] at * <;> omega

/-- C4: getBooks on a successful fetch returns all stored records mapped to
Books, ordered by last-read descending with nulls last and ties broken by
creation time descending; on the sample shape {null, t1, t2} with t2 > t1
the order is [t2, t1, null]; a failed fetch yields the empty list. -/
theorem getBooks_ordering (records : List DbRow) (e : String)
    (rnull r1 r2 : DbRow) (t1 t2 : Int)
    (hn : rnull.last_read = none) (h1 : r1.last_read = some t1)
    (h2 : r2.last_read = some t2) (ht : t1 < t2) :
    (getBooksFromStore records).Perm (records.map fromDb) ∧
    (getBooksFromStore records).Pairwise bookBefore ∧
    getBooksFromStore [rnull, r1, r2] = [fromDb r2, fromDb r1, fromDb rnull] ∧
    getBooks (.error e) = [] := by
  have hA : ¬ dbBefore r1 r2 := by
    unfold dbBefore dbBeforeB
    simp [h1, h2]
    omega
  have hB : ¬ dbBefore rnull r2 := by
    unfold dbBefore dbBeforeB
    simp [hn, h2]
  have hC : ¬ dbBefore rnull r1 := by
    unfold dbBefore dbBeforeB
    simp [hn, h1]
  refine ⟨?_, ?_, ?_, rfl⟩
  · exact (List.perm_insertionSort dbBefore records).map fromDb
  · exact List.Pairwise.map fromDb bookBefore_fromDb
      (List.sorted_insertionSort dbBefore records)
  · simp [getBooksFromStore, getBooks, orderedRows, List.insertionSort,
      List.orderedInsert, hA, hB, hC]
/-- Witness for C4: the three sample rows come back ordered t2, t1, null. -/
theorem getBooks_ordering_witness :
    rowW1.last_read = none ∧ rowW2.last_read = some 10 ∧ rowW3.last_read = some 20 ∧
    getBooksFromStore [rowW1, rowW2, rowW3] = [fromDb rowW3, fromDb rowW2, fromDb rowW1] :=
  ⟨rfl, rfl, rfl,
    (getBooks_ordering [rowW1, rowW2, rowW3] "net" rowW1 rowW2 rowW3 10 20 rfl rfl rfl
      (by decide)).2.2.1⟩

lemma deleteBook_eq_ok (env : DeleteEnv) (s : StoreState) (bookId : String) (book : DbRow)
    (hf : env.fetchErr = none) (hl : lookupSingle s.records bookId = .ok book)
    (hd : env.dbDeleteErr = none) :
    deleteBook env s bookId =
      { result := .ok ()
        state :=
          { records := s.records.filter (fun r => !(r.id == bookId))
            objects :=
              if ((splitOnChar '/' book.file_url).getLast?).getD "" = "" then s.objects
              else
                match env.storageErr with
                | some _ => s.objects
                | none => s.objects.filter
                    (fun k => !(k == ((splitOnChar '/' book.file_url).getLast?).getD "")) }
        trace :=
          if ((splitOnChar '/' book.file_url).getLast?).getD "" = "" then [.dbDelete bookId]
          else [.dbDelete bookId,
            .storageRemove (((splitOnChar '/' book.file_url).getLast?).getD "")] } := by
  unfold deleteBook
  rw [hf, hl, hd]
  split_ifs with hfn
  · simp [hfn]
  · cases env.storageErr <;> simp [hfn]

lemma mem_getBooksFromStore (recs : List DbRow) (bk : Book)
    (h : bk ∈ getBooksFromStore recs) : ∃ r ∈ recs, fromDb r = bk := by
  unfold getBooksFromStore getBooks orderedRows at h
  rcases List.mem_map.mp h with ⟨r, hr, hfr⟩
  exact ⟨r, (List.perm_insertionSort dbBefore recs).mem_iff.mp hr, hfr⟩

/-- C5: with the lookup and the record delete succeeding, deleteBook
succeeds no matter how binary removal fares, the record is gone from the
store (so a subsequent getBooks lists no Book with that id), and the record
deletion strictly precedes any binary removal in the trace; lookup and
record-delete failures, by contrast, are raised. -/
theorem deleteBook_record_first (env : DeleteEnv) (s : StoreState) (bookId : String)
    (book : DbRow)
    (hf : env.fetchErr = none) (hl : lookupSingle s.records bookId = .ok book)
    (hd : env.dbDeleteErr = none) :
    (deleteBook env s bookId).result = .ok () ∧
    (∀ r ∈ (deleteBook env s bookId).state.records, r.id ≠ bookId) ∧
    (∀ bk ∈ getBooksFromStore (deleteBook env s bookId).state.records, bk.id ≠ bookId) ∧
    ((deleteBook env s bookId).trace = [.dbDelete bookId] ∨
      ∃ key, (deleteBook env s bookId).trace = [.dbDelete bookId, .storageRemove key]) ∧
    (∀ env2 : DeleteEnv, ∀ m, env2.fetchErr = some m →
      (deleteBook env2 s bookId).result = .error ("Failed to fetch book: " ++ m)) ∧
    (∀ env2 : DeleteEnv, ∀ m, env2.fetchErr = none → env2.dbDeleteErr = some m →
      (deleteBook env2 s bookId).result = .error ("Failed to delete book record: " ++ m)) := by
  rw [deleteBook_eq_ok env s bookId book hf hl hd]
  have hrec : ∀ r ∈ s.records.filter (fun r => !(r.id == bookId)), r.id ≠ bookId := by
    intro r hr
    have := (List.mem_filter.mp hr).2
    simpa using this
  refine ⟨rfl, hrec, ?_, ?_, ?_, ?_⟩
  · intro bk hbk
    rcases mem_getBooksFromStore _ _ hbk with ⟨r, hr, rfl⟩
    exact hrec r hr
  · by_cases hfn : ((splitOnChar '/' book.file_url).getLast?).getD "" = ""
    · left
      simp [hfn]
    · right
      exact ⟨((splitOnChar '/' book.file_url).getLast?).getD "", by simp [hfn]⟩
  · intro env2 m hm
    unfold deleteBook
    rw [hm]
  · intro env2 m hm2 hd2
    unfold deleteBook
    rw [hm2, hl, hd2]

/-- Witness for C5: deleting record b from the sample store while the
binary removal fails still removes the record. -/
theorem deleteBook_record_first_witness :
    lookupSingle storeW.records "b" = .ok rowW2 ∧
    deleteEnvStorageFailW.storageErr = some "storage down" ∧
    (deleteBook deleteEnvStorageFailW storeW "b").result = .ok () ∧
    (∀ bk ∈ getBooksFromStore (deleteBook deleteEnvStorageFailW storeW "b").state.records,
      bk.id ≠ "b") :=
  ⟨rfl, rfl,
    (deleteBook_record_first deleteEnvStorageFailW storeW "b" rowW2 rfl rfl rfl).1,
    (deleteBook_record_first deleteEnvStorageFailW storeW "b" rowW2 rfl rfl rfl).2.2.1⟩
/-- C6 counterexample: at current page 1 of 3 pages the persisted progress
is exactly 100/3, which differs from the rounded value 33 by 1/3 — far
beyond floating rounding tolerance.  Neither the service nor the
page-change handler rounds. -/
theorem updateReadingProgress_not_rounded :
    (updateReadingProgress 1 3 0).readingProgress = 100 / 3 ∧
    (handlePageChange uploadResultW 1 3 0).readingProgress = some (100 / 3) ∧
    (round ((100 : ℚ) / 3) : ℤ) = 33 ∧
    |(100 : ℚ) / 3 - ((33 : ℤ) : ℚ)| = 1 / 3 ∧
    ¬ |(100 : ℚ) / 3 - ((33 : ℤ) : ℚ)| ≤ 1 / 100 := by
  refine ⟨?_, ?_, ?_, ?_, ?_⟩
  · show (1 : ℚ) / 3 * 100 = 100 / 3
    norm_num
  · show some ((1 : ℚ) / 3 * 100) = some (100 / 3)
    norm_num
  · rw [round_eq]
    norm_num
  · rw [abs_of_nonneg (by norm_num)]
    norm_num
  · rw [abs_of_nonneg (by norm_num)]
    norm_num
/-- C6 amended: for any current page in [1, totalPages], the value persisted
by updateReadingProgress — and the one the page-change handler writes — is
exactly (currentPage / totalPages) · 100, with no rounding applied, and that
exact value lies in [0, 100]. -/
theorem updateReadingProgress_exact_bounds (p t : ℤ) (now : Int)
    (h1 : 1 ≤ p) (h2 : p ≤ t) :
    (updateReadingProgress p t now).readingProgress = (p : ℚ) / t * 100 ∧
    (∀ bk : Book, (handlePageChange bk p t now).readingProgress = some ((p : ℚ) / t * 100)) ∧
    0 ≤ (p : ℚ) / t * 100 ∧ (p : ℚ) / t * 100 ≤ 100 := by
  have ht0 : (0 : ℚ) < (t : ℚ) := by exact_mod_cast (show (0 : ℤ) < t by omega)
  have hp0 : (0 : ℚ) ≤ (p : ℚ) := by exact_mod_cast (show (0 : ℤ) ≤ p by omega)
  refine ⟨rfl, fun bk => rfl, ?_, ?_⟩
  · exact mul_nonneg (div_nonneg hp0 ht0.le) (by norm_num)
  · have hle : (p : ℚ) / t ≤ 1 := (div_le_one ht0).mpr (by exact_mod_cast h2)
    calc (p : ℚ) / t * 100 ≤ 1 * 100 := mul_le_mul_of_nonneg_right hle (by norm_num)
    _ = 100 := by norm_num

/-- Witness for C6 (amended): page 1 of 2 stores exactly 50. -/
theorem updateReadingProgress_exact_bounds_witness :
    ((1 : ℤ) ≤ 1 ∧ (1 : ℤ) ≤ 2) ∧
    (updateReadingProgress 1 2 0).readingProgress = (1 : ℚ) / 2 * 100 :=
  ⟨⟨by decide, by decide⟩,
    (updateReadingProgress_exact_bounds 1 2 0 (by decide) (by decide)).1⟩
/-- C7 counterexample: loadPDF takes the initial current page from the
opened Book without range-checking it against the page count: a stored
current page of 37 on a ten-page document yields state (37, 10), violating
the claimed invariant right after the document loads. -/
theorem loadPDF_initial_page_out_of_range :
    (loadPDF_state bookBadPageW 10).currentPage = 37 ∧
    (loadPDF_state bookBadPageW 10).totalPages = 10 ∧
    ¬ (loadPDF_state bookBadPageW 10).currentPage ≤ (loadPDF_state bookBadPageW 10).totalPages := by
  refine ⟨rfl, rfl, ?_⟩
  show ¬ (37 : ℤ) ≤ 10
  decide

lemma goToPage_currentPage (s : ViewerState) (q : Int) :
    (goToPage s q).currentPage = if 1 ≤ q ∧ q ≤ s.totalPages then q else s.currentPage := by
  unfold goToPage
  split_ifs <;> rfl

lemma goToPage_totalPages (s : ViewerState) (q : Int) :
    (goToPage s q).totalPages = s.totalPages := by
  unfold goToPage
  split_ifs <;> rfl

/-- C7 amended: navigation preserves the invariant — goToPage keeps the
page in [1, totalPages] and behaves as clamping for previous/next steps,
out-of-range targets and non-numeric entries leave the state unchanged —
but the initial page after loading is in range only when the stored page
already is (or is absent or zero, defaulting to 1). -/
theorem viewer_page_invariant (s : ViewerState) (p : Int) (inp : Option Int)
    (hinv : 1 ≤ s.currentPage ∧ s.currentPage ≤ s.totalPages) :
    (1 ≤ (goToPage s p).currentPage ∧
      (goToPage s p).currentPage ≤ (goToPage s p).totalPages) ∧
    (goToPage s (s.currentPage - 1)).currentPage = max 1 (s.currentPage - 1) ∧
    (goToPage s (s.currentPage + 1)).currentPage = min s.totalPages (s.currentPage + 1) ∧
    ((p < 1 ∨ s.totalPages < p) → goToPage s p = s) ∧
    (1 ≤ (handlePageInput s inp).currentPage ∧
      (handlePageInput s inp).currentPage ≤ (handlePageInput s inp).totalPages) ∧
    handlePageInput s none = s ∧
    (∀ bk : Book, ∀ n : Int, 1 ≤ n →
      (bk.currentPage = none ∨ bk.currentPage = some 0 ∨
        (∃ c, bk.currentPage = some c ∧ 1 ≤ c ∧ c ≤ n)) →
      1 ≤ (loadPDF_state bk n).currentPage ∧
        (loadPDF_state bk n).currentPage ≤ (loadPDF_state bk n).totalPages) := by
  obtain ⟨hlo, hhi⟩ := hinv
  have hgo : ∀ q : Int, 1 ≤ (goToPage s q).currentPage ∧
      (goToPage s q).currentPage ≤ (goToPage s q).totalPages := by
    intro q
    simp only [goToPage_currentPage, goToPage_totalPages]
    split_ifs with h <;> omega
  refine ⟨hgo p, ?_, ?_, ?_, ?_, rfl, ?_⟩
  · rw [goToPage_currentPage]
    split_ifs with hq <;> omega
  · rw [goToPage_currentPage]
    split_ifs with hq <;> omega
  · intro hout
    unfold goToPage
    rw [if_neg (by omega)]
  · rcases inp with _ | q
    · exact ⟨hlo, hhi⟩
    · exact hgo q
  · intro bk n hn hcase
    unfold loadPDF_state
    rcases hcase with hc | hc | ⟨c, hc, hc1, hc2⟩ <;> rw [hc] <;> simp [jsOrInt]
    · omega
    · omega
    · split_ifs <;> omega
/-- Witness for C7 (amended): at state (2, 10), entering page 11 is out of
range and leaves the state unchanged. -/
theorem viewer_page_invariant_witness :
    ((1 : ℤ) ≤ 2 ∧ (2 : ℤ) ≤ 10) ∧ goToPage ⟨2, 10⟩ 11 = ⟨2, 10⟩ :=
  ⟨⟨by decide, by decide⟩,
    (viewer_page_invariant ⟨2, 10⟩ 11 (some 3) ⟨by decide, by decide⟩).2.2.2.1
      (Or.inr (by decide))⟩

lemma observerFold_spec (entries : List IntersectionEntry) (r0 : ℚ) (p0 : Int)
    (v0 : Finset Int) :
    r0 ≤ (entries.foldl observerStep (r0, p0, v0)).1 ∧
    (∀ e ∈ entries, e.isIntersecting = true →
      e.intersectionRatio ≤ (entries.foldl observerStep (r0, p0, v0)).1) ∧
    (((entries.foldl observerStep (r0, p0, v0)).1 = r0 ∧
        (entries.foldl observerStep (r0, p0, v0)).2.1 = p0) ∨
      ∃ e ∈ entries, e.isIntersecting = true ∧
        (entries.foldl observerStep (r0, p0, v0)).1 = e.intersectionRatio ∧
        (entries.foldl observerStep (r0, p0, v0)).2.1 = e.pageNum) := by
  induction entries generalizing r0 p0 v0 with
  | nil => simp
  | cons e es ih =>
    simp only [List.foldl_cons]
    by_cases hι : e.isIntersecting
    · by_cases hr : r0 < e.intersectionRatio
      · have hstep : observerStep (r0, p0, v0) e =
            (e.intersectionRatio, e.pageNum, insert e.pageNum v0) := by
          unfold observerStep
          rw [if_pos hι, if_pos hr]
        rw [hstep]
        obtain ⟨ha, hb, hc⟩ := ih e.intersectionRatio e.pageNum (insert e.pageNum v0)
        refine ⟨le_trans hr.le ha, ?_, ?_⟩
        · intro e2 he2 hι2
          rcases List.mem_cons.mp he2 with rfl | he2
          · exact ha
          · exact hb e2 he2 hι2
        · rcases hc with ⟨hc1, hc2⟩ | ⟨e2, he2, h1, h2, h3⟩
          · exact Or.inr ⟨e, List.mem_cons_self e es, hι, hc1, hc2⟩
          · exact Or.inr ⟨e2, List.mem_cons_of_mem e he2, h1, h2, h3⟩
      · have hstep : observerStep (r0, p0, v0) e = (r0, p0, insert e.pageNum v0) := by
          unfold observerStep
          rw [if_pos hι, if_neg hr]
        rw [hstep]
        obtain ⟨ha, hb, hc⟩ := ih r0 p0 (insert e.pageNum v0)
        refine ⟨ha, ?_, ?_⟩
        · intro e2 he2 hι2
          rcases List.mem_cons.mp he2 with rfl | he2
          · exact le_trans (not_lt.mp hr) ha
          · exact hb e2 he2 hι2
        · rcases hc with hc | ⟨e2, he2, h1, h2, h3⟩
          · exact Or.inl hc
          · exact Or.inr ⟨e2, List.mem_cons_of_mem e he2, h1, h2, h3⟩
    · have hstep : observerStep (r0, p0, v0) e = (r0, p0, v0.erase e.pageNum) := by
        unfold observerStep
        rw [if_neg hι]
      rw [hstep]
      obtain ⟨ha, hb, hc⟩ := ih r0 p0 (v0.erase e.pageNum)
      refine ⟨ha, ?_, ?_⟩
      · intro e2 he2 hι2
        rcases List.mem_cons.mp he2 with rfl | he2
        · exact absurd hι2 hι
        · exact hb e2 he2 hι2
      · rcases hc with hc | ⟨e2, he2, h1, h2, h3⟩
        · exact Or.inl hc
        · exact Or.inr ⟨e2, List.mem_cons_of_mem e he2, h1, h2, h3⟩
/-- C8: on a visibility change the reported current page stays unchanged
(and no callback fires) when no intersecting page exceeds 10% visibility;
when one does, the page with the greatest visible fraction is adopted and
the page-change callback fires with (that page, totalPages).  In
particular, one page intersecting at 5% changes nothing, while one at 15%
takes over. -/
theorem observer_most_visible (cur tot : Int) (vis : Finset Int)
    (entries : List IntersectionEntry) (p : Int) :
    ((∀ e ∈ entries, e.isIntersecting = true → e.intersectionRatio ≤ 1 / 10) →
      (observerCallback cur tot vis entries).currentPage = cur ∧
      (observerCallback cur tot vis entries).callback = none) ∧
    ((∃ e ∈ entries, e.isIntersecting = true ∧ 1 / 10 < e.intersectionRatio) →
      ∃ e ∈ entries, e.isIntersecting = true ∧
        (∀ e2 ∈ entries, e2.isIntersecting = true →
          e2.intersectionRatio ≤ e.intersectionRatio) ∧
        (observerCallback cur tot vis entries).currentPage = e.pageNum ∧
        (observerCallback cur tot vis entries).callback = some (e.pageNum, tot)) ∧
    ((observerCallback cur tot vis [⟨p, true, 1 / 20⟩]).currentPage = cur ∧
      (observerCallback cur tot vis [⟨p, true, 1 / 20⟩]).callback = none) ∧
    ((observerCallback cur tot vis [⟨p, true, 3 / 20⟩]).currentPage = p ∧
      (observerCallback cur tot vis [⟨p, true, 3 / 20⟩]).callback = some (p, tot)) := by
  obtain ⟨ha, hb, hc⟩ := observerFold_spec entries 0 cur vis
  refine ⟨?_, ?_, ?_, ?_⟩
  · intro hsmall
    have hle : (entries.foldl observerStep (0, cur, vis)).1 ≤ 1 / 10 := by
      rcases hc with ⟨hc1, _⟩ | ⟨e, he, hι, h1, _⟩
      · rw [hc1]
        norm_num
      · rw [h1]
        exact hsmall e he hι
    unfold observerCallback
    rw [if_neg (not_lt.mpr hle)]
    exact ⟨rfl, rfl⟩
  · intro hbig
    obtain ⟨e, he, hι, hre⟩ := hbig
    have hgt : 1 / 10 < (entries.foldl observerStep (0, cur, vis)).1 :=
      lt_of_lt_of_le hre (hb e he hι)
    rcases hc with ⟨hc1, _⟩ | ⟨e2, he2, hι2, h1, h2⟩
    · rw [hc1] at hgt
      norm_num at hgt
    · refine ⟨e2, he2, hι2, ?_, ?_, ?_⟩
      · intro e3 he3 hι3
        rw [← h1]
        exact hb e3 he3 hι3
      · unfold observerCallback
        rw [if_pos hgt]
        exact h2
      · unfold observerCallback
        rw [if_pos hgt]
        simp only
        rw [h2]
  · unfold observerCallback observerStep
    norm_num
  · unfold observerCallback observerStep
    norm_num
/-- Witness for C8: concrete 5% and 15% single-entry callbacks. -/
theorem observer_most_visible_witness :
    (observerCallback 1 10 ∅ [⟨2, true, 1 / 20⟩]).currentPage = 1 ∧
    (observerCallback 1 10 ∅ [⟨2, true, 1 / 20⟩]).callback = none ∧
    (observerCallback 1 10 ∅ [⟨3, true, 3 / 20⟩]).callback = some (3, 10) :=
  ⟨((observer_most_visible 1 10 ∅ [⟨2, true, 1 / 20⟩] 2).1
      (by
        intro e he h
        rw [List.mem_singleton] at he
        subst he
        norm_num)).1,
   ((observer_most_visible 1 10 ∅ [⟨2, true, 1 / 20⟩] 2).1
      (by
        intro e he h
        rw [List.mem_singleton] at he
        subst he
        norm_num)).2,
   (observer_most_visible 1 10 ∅ [⟨3, true, 3 / 20⟩] 3).2.2.2.2⟩

/-- C9 counterexample: the mapping pair is not symmetric on absent optional
fields — a Book without description round-trips to description "" (after a
store round trip), and a record with null description maps back to "",
disagreeing in both directions. -/
theorem mapping_roundtrip_counterexample :
    uploadResultW.description = some "" ∧
    (fromDb (insertResponse (toDb { uploadResultW with description := none }) "srv" 0)).description
      ≠ ({ uploadResultW with description := none } : Book).description ∧
    rowW1.description = none ∧
    (toDb (fromDb rowW1)).description ≠ rowW1.description := by
  refine ⟨rfl, ?_, rfl, ?_⟩
  · show some "" ≠ none
    simp
  · show some "" ≠ none
    simp

/-- C9 amended: after a store round trip the mappings agree on title,
author, binary URL, file size and last-read unconditionally, and on
description, tags, total pages, current page and reading progress exactly
when the optional/nullable field is present; absent fields come back as
the defaults of fromDb instead. -/
theorem mapping_roundtrip_present_fields (b : Book) (sid : String) (ts : Int) (r : DbRow) :
    ((fromDb (insertResponse (toDb b) sid ts)).title = b.title ∧
     (fromDb (insertResponse (toDb b) sid ts)).author = b.author ∧
     (fromDb (insertResponse (toDb b) sid ts)).url = b.url ∧
     (fromDb (insertResponse (toDb b) sid ts)).fileSize = b.fileSize ∧
     (fromDb (insertResponse (toDb b) sid ts)).lastRead = b.lastRead ∧
     (b.description.isSome →
       (fromDb (insertResponse (toDb b) sid ts)).description = b.description) ∧
     (b.tags.isSome → (fromDb (insertResponse (toDb b) sid ts)).tags = b.tags) ∧
     (b.totalPages.isSome →
       (fromDb (insertResponse (toDb b) sid ts)).totalPages = b.totalPages) ∧
     (b.currentPage.isSome →
       (fromDb (insertResponse (toDb b) sid ts)).currentPage = b.currentPage) ∧
     (b.readingProgress.isSome →
       (fromDb (insertResponse (toDb b) sid ts)).readingProgress = b.readingProgress)) ∧
    ((toDb (fromDb r)).title = r.title ∧
     (toDb (fromDb r)).author = r.author ∧
     (toDb (fromDb r)).file_url = r.file_url ∧
     (toDb (fromDb r)).file_size = r.file_size ∧
     (toDb (fromDb r)).last_read = r.last_read ∧
     (r.description.isSome → (toDb (fromDb r)).description = r.description) ∧
     (r.tags.isSome → (toDb (fromDb r)).tags = r.tags) ∧
     (r.total_pages.isSome → (toDb (fromDb r)).total_pages = r.total_pages) ∧
     (r.current_page.isSome → (toDb (fromDb r)).current_page = r.current_page) ∧
     (r.reading_progress.isSome →
       (toDb (fromDb r)).reading_progress = r.reading_progress)) := by
  refine ⟨⟨rfl, rfl, rfl, rfl, rfl, ?_, ?_, ?_, ?_, ?_⟩,
    ⟨rfl, rfl, rfl, rfl, rfl, ?_, ?_, ?_, ?_, ?_⟩⟩ <;>
    intro h <;> rw [Option.isSome_iff_exists] at h <;> obtain ⟨x, hx⟩ := h <;>
    simp [fromDb, toDb, insertResponse, hx]

/-- Witness for C9 (amended): a Book with every optional field present
round-trips its description. -/
theorem mapping_roundtrip_present_fields_witness :
    uploadResultW.description.isSome = true ∧
    (fromDb (insertResponse (toDb uploadResultW) "srv" 7)).description
      = uploadResultW.description :=
  ⟨rfl, (mapping_roundtrip_present_fields uploadResultW "srv" 7 rowW1).1.2.2.2.2.2.1 (by rfl)⟩
